import Mathlib

/-!
Verification of the pipeline-control subsystem of the dataset-schema
super-actor against its natural-language specification.

The TypeScript sources are shallowly embedded: JavaScript values are
modelled by the inductive type `JSVal` (numbers as integers; IEEE
specifics such as NaN and double rounding are outside the model, and no
statement below depends on them), JavaScript exceptions by
`Except String`, and every remote collaborator (Apify client, Redash,
OpenRouter, GitHub/Octokit) by an explicit oracle argument, following
the contracts in section 6 of the specification.
-/

/-- Model of a JavaScript runtime value as far as the pipeline code
inspects one.  Numbers are modelled as integers (every numeric literal
the embedded code produces or compares is integral). -/
inductive JSVal where
  | vNull : JSVal
  | vUndefined : JSVal
  | vBool : Bool → JSVal
  | vNum : Int → JSVal
  | vStr : String → JSVal
  | vArr : List JSVal → JSVal
  | vObj : List (String × JSVal) → JSVal

/-- JavaScript truthiness (`NaN` is not representable in the model). -/
def jsTruthy : JSVal → Bool
  | .vNull => false
  | .vUndefined => false
  | .vBool b => b
  | .vNum n => n != 0
  | .vStr s => s != ""
  | .vArr _ => true
  | .vObj _ => true

/-- JavaScript `typeof`. -/
def jsTypeof : JSVal → String
  | .vUndefined => "undefined"
  | .vBool _ => "boolean"
  | .vNum _ => "number"
  | .vStr _ => "string"
  | _ => "object"

/-- First binding of a key in an object literal (JS objects keep one
binding per key). -/
def objLookup (fs : List (String × JSVal)) (k : String) : JSVal :=
  (fs.lookup k).getD .vUndefined

/-- Property read that never throws: used for `a?.b` optional chains and
for reads whose base is already known non-nullish.  Only the `length`
own-property of strings and arrays is modelled besides object fields. -/
def jsGetSafe (v : JSVal) (k : String) : JSVal :=
  match v with
  | .vObj fs => objLookup fs k
  | .vArr xs => if k == "length" then .vNum xs.length else .vUndefined
  | .vStr s => if k == "length" then .vNum s.length else .vUndefined
  | _ => .vUndefined

/-- Property read `a.b`, throwing (as `Except.error`) on a nullish base
exactly as JavaScript does. -/
def jsGetProp (v : JSVal) (k : String) : Except String JSVal :=
  match v with
  | .vNull => .error ("Cannot read properties of null (reading " ++ k ++ ")")
  | .vUndefined => .error ("Cannot read properties of undefined (reading " ++ k ++ ")")
  | _ => .ok (jsGetSafe v k)

/-- JavaScript strict equality on the values the code compares.  Two
object/array values are never identified (reference semantics: distinct
model values stand for distinct heap objects). -/
def jsStrictEq : JSVal → JSVal → Bool
  | .vNull, .vNull => true
  | .vUndefined, .vUndefined => true
  | .vBool a, .vBool b => a == b
  | .vNum a, .vNum b => a == b
  | .vStr a, .vStr b => a == b
  | _, _ => false

/-- `Array.isArray`. -/
def jsIsArray : JSVal → Bool
  | .vArr _ => true
  | _ => false

/-- Elements of an array value (empty for non-arrays). -/
def arrItems : JSVal → List JSVal
  | .vArr xs => xs
  | _ => []

/-- Index read `a[i]` on an array (returns `undefined` out of range). -/
def arrIdx (v : JSVal) (i : Nat) : JSVal :=
  match v with
  | .vArr xs => (xs.get? i).getD .vUndefined
  | _ => .vUndefined

mutual

/-- String coercion, mirroring JavaScript `String(v)` for the values
interpolated into the embedded template literals. -/
def jsToString : JSVal → String
  | .vNull => "null"
  | .vUndefined => "undefined"
  | .vBool b => if b then "true" else "false"
  | .vNum n => toString n
  | .vStr s => s
  | .vArr xs => String.intercalate "," (jsToStringList xs)
  | .vObj _ => "[object Object]"

/-- Array elements under `String(v)` (nullish elements print empty). -/
def jsToStringList : List JSVal → List String
  | [] => []
  | .vNull :: xs => "" :: jsToStringList xs
  | .vUndefined :: xs => "" :: jsToStringList xs
  | x :: xs => jsToString x :: jsToStringList xs

end

/-- Replace the first binding of a key, or append one: JavaScript
property assignment on a plain object. -/
def setObjProp : List (String × JSVal) → String → JSVal → List (String × JSVal)
  | [], k, v => [(k, v)]
  | (k0, v0) :: rest, k, v =>
      if k0 == k then (k0, v) :: rest else (k0, v0) :: setObjProp rest k v

/-- Remove every binding of a key (JavaScript `delete o.k`). -/
def removeObjProp (fs : List (String × JSVal)) (k : String) : List (String × JSVal) :=
  fs.filter (fun kv => kv.1 != k)

/-- `Object.entries` on the values the code feeds to it. -/
def jsEntries : JSVal → List (String × JSVal)
  | .vObj fs => fs
  | .vArr xs => (xs.enum.map (fun p => (toString p.1, p.2)))
  | _ => []

/-- `Object.keys`, throwing on a nullish argument as JavaScript does. -/
def jsObjectKeys (v : JSVal) : Except String (List String) :=
  match v with
  | .vNull => .error "Cannot convert undefined or null to object"
  | .vUndefined => .error "Cannot convert undefined or null to object"
  | .vObj fs => .ok (fs.map (·.1))
  | .vArr xs => .ok ((List.range xs.length).map toString)
  | _ => .ok []

/-! ### Character-list string utilities (exact models of the string and
regular-expression operations the sources use) -/

/-- Strip a literal pattern from the head of a character list. -/
def dropLeading : List Char → List Char → Option (List Char)
  | s, [] => some s
  | [], _ :: _ => none
  | c :: s, p :: ps => if c = p then dropLeading s ps else none

/-- Does the first list start with the second? -/
def startsWithL (s pat : List Char) : Bool := (dropLeading s pat).isSome

/-- Substring containment over character lists. -/
def containsSubL (pat : List Char) : List Char → Bool
  | [] => startsWithL [] pat
  | c :: rest => startsWithL (c :: rest) pat || containsSubL pat rest

/-- JavaScript `String.prototype.includes`. -/
def strContains (s pat : String) : Bool := containsSubL pat.toList s.toList

/-- Split a character list at the first occurrence of a pattern,
returning the parts before and after it. -/
def splitAtSub (pat : List Char) : List Char → Option (List Char × List Char)
  | [] => (dropLeading [] pat).map (fun r => ([], r))
  | c :: rest =>
      match dropLeading (c :: rest) pat with
      | some r => some ([], r)
      | none => (splitAtSub pat rest).map (fun p => (c :: p.1, p.2))

/-- Leading digit run and remainder (the `\d+` of the source regexes). -/
def spanDigits (cs : List Char) : List Char × List Char := cs.span Char.isDigit

/-- Numeric value of a digit run. -/
def digitsToNat (ds : List Char) : Nat :=
  ds.foldl (fun a c => a * 10 + (c.toNat - 48)) 0

/-! ### Input Validator (src/src/actors/input-validator.ts) -/

/-- Outcome of one pattern-based check (`{ success, error? }`). -/
structure PatternCheck where
  success : Bool
  error : Option String
deriving DecidableEq

/-- Parse `\d+\.\d+` as an exact rational together with the remaining
input (JavaScript `parseFloat` on such a literal, modelled exactly; no
statement below depends on double rounding). -/
def parseUnsignedDec (cs : List Char) : Option (ℚ × List Char) :=
  let (ip, r1) := spanDigits cs
  if ip.isEmpty then none
  else
    match r1 with
    | '.' :: r2 =>
        let (fp, r3) := spanDigits r2
        if fp.isEmpty then none
        else some (((digitsToNat ip : ℚ) + (digitsToNat fp : ℚ) / ((10 : ℚ) ^ fp.length)), r3)
    | _ => none

/-- Parse `-?\d+\.\d+`. -/
def parseSignedDec (cs : List Char) : Option (ℚ × List Char) :=
  match cs with
  | '-' :: r => (parseUnsignedDec r).map (fun p => (-p.1, p.2))
  | _ => parseUnsignedDec cs

/-- Match `(-?\d+\.\d+),(-?\d+\.\d+),(\d+)z` directly after an `@`. -/
def coordAfterAt (cs : List Char) : Option (ℚ × ℚ × Nat) :=
  match parseSignedDec cs with
  | none => none
  | some (lat, r1) =>
    match r1 with
    | ',' :: r2 =>
      match parseSignedDec r2 with
      | none => none
      | some (lng, r3) =>
        match r3 with
        | ',' :: r4 =>
          let (zd, r5) := spanDigits r4
          if zd.isEmpty then none
          else
            match r5 with
            | 'z' :: _ => some (lat, lng, digitsToNat zd)
            | _ => none
        | _ => none
    | _ => none

/-- Leftmost match of `/@(-?\d+\.\d+),(-?\d+\.\d+),(\d+)z/` in a
character list (the `coordMatch` of `isValidGoogleMapsUrl`). -/
def findCoordMatch : List Char → Option (ℚ × ℚ × Nat)
  | [] => none
  | '@' :: rest =>
      match coordAfterAt rest with
      | some r => some r
      | none => findCoordMatch rest
  | _ :: rest => findCoordMatch rest

/-- Anchored test of the Google-Maps place-URL pattern
`^https:\/\/www\.google\.com\/maps\/place\/[^\/]+\/@-?\d+\.\d+,-?\d+\.\d+,\d+z\/data=!.*$`
(`.` does not match a newline). -/
def gmapsPatternTest (cs : List Char) : Bool :=
  match dropLeading cs "https://www.google.com/maps/place/".toList with
  | none => false
  | some r1 =>
    let (seg, r2) := r1.span (fun c => c ≠ '/')
    if seg.isEmpty then false
    else
      match r2 with
      | '/' :: '@' :: r3 =>
        match parseSignedDec r3 with
        | none => false
        | some (_, r4) =>
          match r4 with
          | ',' :: r5 =>
            match parseSignedDec r5 with
            | none => false
            | some (_, r6) =>
              match r6 with
              | ',' :: r7 =>
                let (zd, r8) := spanDigits r7
                if zd.isEmpty then false
                else
                  match r8 with
                  | 'z' :: '/' :: r9 =>
                    match dropLeading r9 "data=!".toList with
                    | none => false
                    | some r10 => r10.all (fun c => c ≠ '\n')
                  | _ => false
              | _ => false
          | _ => false
      | _ => false

/-- `isValidGoogleMapsUrl` of the Input Validator: first coordinate
match, range checks on latitude/longitude/zoom, then the anchored
pattern test. -/
def isValidGoogleMapsUrl (url : String) : Bool :=
  match findCoordMatch url.toList with
  | none => false
  | some (lat, lng, zoom) =>
    if lat < -90 ∨ lat > 90 then false
    else if lng < -180 ∨ lng > 180 then false
    else if zoom < 1 ∨ zoom > 20 then false
    else gmapsPatternTest url.toList

/-- `isValidGoogleMapsUrl` as invoked on an arbitrary runtime value
(a non-string receiver makes `url.match` throw). -/
def isValidGoogleMapsUrlJS (v : JSVal) : Except String Bool :=
  match v with
  | .vStr s => .ok (isValidGoogleMapsUrl s)
  | .vNull => .error "Cannot read properties of null (reading match)"
  | .vUndefined => .error "Cannot read properties of undefined (reading match)"
  | _ => .error "url.match is not a function"

/-- The language whitelist of `validateGoogleMapsInput`. -/
def validLanguages : List String :=
  ["en", "af", "az", "id", "ms", "bs", "ca", "cs", "da", "de", "et", "es",
   "es-419", "eu", "fil", "fr", "gl", "hr", "zu", "is", "it", "sw", "lv",
   "lt", "hu", "nl", "no", "uz", "pl", "pt-BR", "pt-PT", "ro", "sq", "sk",
   "sl", "fi", "sv", "vi", "tr", "el", "bg", "ky", "kk", "mk", "mn", "ru",
   "sr", "uk", "ka", "hy", "iw", "ur", "ar", "fa", "am", "ne", "hi", "mr",
   "bn", "pa", "gu", "ta", "te", "kn", "ml", "si", "th", "lo", "my", "km",
   "ko", "ja", "zh-CN", "zh-TW"]

/-- The `for (const url of startUrls)` loop of `validateGoogleMapsInput`
with its early return. -/
def checkStartUrls : List JSVal → Except String (Option String)
  | [] => .ok none
  | u :: rest =>
      match isValidGoogleMapsUrlJS u with
      | .error e => .error e
      | .ok ok =>
          if !ok then .ok (some ("Invalid Google Maps URL format: " ++ jsToString u))
          else checkStartUrls rest

/-- The `for (const placeId of placeIds)` loop of
`validateGoogleMapsInput` with its early return. -/
def checkPlaceIds : List JSVal → Option String
  | [] => none
  | p :: rest =>
      match p with
      | .vStr s => if s.length < 10 then some ("Invalid place ID format: " ++ s) else checkPlaceIds rest
      | other => some ("Invalid place ID format: " ++ jsToString other)

/-- `validateGoogleMapsInput` of the Input Validator (exceptions from
property reads on nullish input surface as `Except.error`, which the
caller converts to a failed variant). -/
def validateGoogleMapsInput (input : JSVal) : Except String PatternCheck := do
  let mr ← jsGetProp input "maxReviews"
  if !jsTruthy mr || jsTypeof mr != "number" then
    return ⟨false, some "maxReviews is required and must be a number"⟩
  let su ← jsGetProp input "startUrls"
  let pid ← jsGetProp input "placeIds"
  if !jsTruthy su && !jsTruthy pid then
    return ⟨false, some "Either startUrls or placeIds must be provided"⟩
  if jsTruthy su then
    if !jsIsArray su || (arrItems su).isEmpty then
      return ⟨false, some "startUrls must be a non-empty array"⟩
    match ← checkStartUrls (arrItems su) with
    | some err => return ⟨false, some err⟩
    | none => pure ()
  if jsTruthy pid then
    if !jsIsArray pid || (arrItems pid).isEmpty then
      return ⟨false, some "placeIds must be a non-empty array"⟩
    match checkPlaceIds (arrItems pid) with
    | some err => return ⟨false, some err⟩
    | none => pure ()
  let lang ← jsGetProp input "language"
  if jsTruthy lang then
    let okLang :=
      match lang with
      | .vStr s => validLanguages.contains s
      | _ => false
    if !okLang then
      return ⟨false, some ("Invalid language code: " ++ jsToString lang ++ ". Must be one of: "
        ++ String.intercalate ", " (validLanguages.take 10) ++ "...")⟩
  return ⟨true, none⟩

/-- `validateGenericInput`: the structural check used for every other
target (non-null object). -/
def validateGenericInput (input : JSVal) : PatternCheck :=
  if !jsTruthy input || jsTypeof input != "object" then
    ⟨false, some "Input must be an object"⟩
  else ⟨true, none⟩

/-- `validateInputPattern` of `src/src/actors/input-validator.ts`:
Google-Maps-specific rules for targets whose identifier contains
`Google-Maps-Reviews-Scraper`, the generic structural check otherwise. -/
def validateInputPattern (input : JSVal) (targetActorId : String) : Except String PatternCheck :=
  if strContains targetActorId "Google-Maps-Reviews-Scraper" then
    validateGoogleMapsInput input
  else
    .ok (validateGenericInput input)

/-- Whether one candidate variant passes its per-variant check (a thrown
exception is recorded as a failed variant by `validateInputs`). -/
def variantPasses (targetActorId : String) (input : JSVal) : Bool :=
  match validateInputPattern input targetActorId with
  | .ok r => r.success
  | .error _ => false

/-- The four named input variants plus the target identifier
(`TestInputConfig`). -/
structure TestInputConfig where
  minimalInput : JSVal
  normalInput : JSVal
  maximalInput : JSVal
  edgeInput : JSVal
  targetActorId : String

/-- Per-variant record pushed into `results` by `validateInputs`. -/
structure VariantCheck where
  variant : String
  success : Bool
  error : Option String

/-- Result shape of `validateInputs` (`ValidationResult` in the
source). -/
structure InputValidationResult where
  successfulRuns : Nat
  totalRuns : Nat
  overallSuccess : Bool
  failedInputs : List (String × String)
  successfulInputs : List String

/-- One iteration of the variant loop of `validateInputs`, including
its `try/catch`. -/
def runVariant (targetActorId : String) (name : String) (input : JSVal) : VariantCheck :=
  match validateInputPattern input targetActorId with
  | .ok r => if r.success then ⟨name, true, none⟩ else ⟨name, false, r.error⟩
  | .error m => ⟨name, false, some m⟩

/-- The `variants` object of `validateInputs`, in insertion order. -/
def variantsList (inputs : TestInputConfig) : List (String × JSVal) :=
  [("minimal", inputs.minimalInput), ("normal", inputs.normalInput),
   ("maximal", inputs.maximalInput), ("edge", inputs.edgeInput)]

/-- `validateInputs` of the Input Validator: pattern-validate each of
the four variants, then tally (`overallSuccess` requires at least two
passes). -/
def validateInputs (targetActorId : String) (inputs : TestInputConfig) : InputValidationResult :=
  let results := (variantsList inputs).map (fun p => runVariant targetActorId p.1 p.2)
  let successfulRuns := results.countP (·.success)
  let totalRuns := results.length
  let overallSuccess : Bool := decide (2 ≤ successfulRuns)
  let failedInputs := (results.filter (fun r => !r.success)).map
    (fun r => (r.variant, r.error.getD "Unknown error"))
  let successfulInputs := (results.filter (fun r => r.success)).map (·.variant)
  ⟨successfulRuns, totalRuns, overallSuccess, failedInputs, successfulInputs⟩

/-- `generateValidationFeedback` of the Input Validator. -/
def generateValidationFeedback (vr : InputValidationResult) : String :=
  if vr.overallSuccess then "All inputs validated successfully"
  else
    String.intercalate "\n"
      (["Validation failed: Only " ++ toString vr.successfulRuns ++ "/" ++ toString vr.totalRuns
          ++ " inputs were valid.",
        "Please fix the following issues:"]
        ++ vr.failedInputs.map (fun f => "- " ++ f.1 ++ ": " ++ f.2)
        ++ ["", "Please generate new inputs that will pass Actor validation.", "Focus on:",
            "- Valid URL formats for startUrls", "- Valid language codes",
            "- Proper input parameter types",
            "- Realistic test data that matches Actor requirements"])

/-! ### JSON serialization and parsing (models of `JSON.stringify` and
`JSON.parse` on the documents the pipeline handles; numbers are
integral throughout the model) -/

/-- Lower-case hexadecimal digit. -/
def hexDigit (n : Nat) : Char :=
  if n < 10 then Char.ofNat (48 + n) else Char.ofNat (87 + n)

/-- Escaping of one character inside a JSON string literal, as
`JSON.stringify` performs it. -/
def jsonEscapeChar (c : Char) : String :=
  if c == '"' then "\\\""
  else if c == '\\' then "\\\\"
  else if c == '\n' then "\\n"
  else if c == '\r' then "\\r"
  else if c == '\t' then "\\t"
  else if c == '\x08' then "\\b"
  else if c == '\x0c' then "\\f"
  else if c.toNat < 32 then
    "\\u00" ++ String.mk [hexDigit (c.toNat / 16), hexDigit (c.toNat % 16)]
  else String.singleton c

/-- A JSON string literal. -/
def jsonQuote (s : String) : String :=
  "\"" ++ String.join (s.data.map jsonEscapeChar) ++ "\""

/-- Opening and closing object braces as strings. -/
def obrace : String := "\x7b"

def cbrace : String := "\x7d"

mutual

/-- `JSON.stringify(v, null, gap)` with accumulated indentation `ind`;
`none` is the `undefined` result (top-level `undefined`). -/
def jsonStringifyAux (gap ind : String) : JSVal → Option String
  | .vUndefined => none
  | .vNull => some "null"
  | .vBool b => some (if b then "true" else "false")
  | .vNum n => some (toString n)
  | .vStr s => some (jsonQuote s)
  | .vArr xs =>
      if xs.isEmpty then some "[]"
      else
        let ind2 := ind ++ gap
        let parts := jsonStringifyItems gap ind2 xs
        some (if gap == "" then "[" ++ String.intercalate "," parts ++ "]"
              else "[\n" ++ ind2 ++ String.intercalate (",\n" ++ ind2) parts ++ "\n" ++ ind ++ "]")
  | .vObj fs =>
      let ind2 := ind ++ gap
      let parts := jsonStringifyFields gap ind2 fs
      if parts.isEmpty then some (obrace ++ cbrace)
      else
        some (if gap == "" then obrace ++ String.intercalate "," parts ++ cbrace
              else obrace ++ "\n" ++ ind2 ++ String.intercalate (",\n" ++ ind2) parts
                ++ "\n" ++ ind ++ cbrace)

/-- Array elements under `JSON.stringify` (`undefined` prints `null`). -/
def jsonStringifyItems (gap ind : String) : List JSVal → List String
  | [] => []
  | x :: xs => ((jsonStringifyAux gap ind x).getD "null") :: jsonStringifyItems gap ind xs

/-- Object members under `JSON.stringify` (`undefined`-valued members
are omitted). -/
def jsonStringifyFields (gap ind : String) : List (String × JSVal) → List String
  | [] => []
  | kv :: fs =>
      match jsonStringifyAux gap ind kv.2 with
      | none => jsonStringifyFields gap ind fs
      | some s =>
          (jsonQuote kv.1 ++ (if gap == "" then ":" else ": ") ++ s) :: jsonStringifyFields gap ind fs

end

/-- The indentation gap of `JSON.stringify(v, null, n)` (capped at 10
spaces, as in JavaScript). -/
def spacesGap (n : Nat) : String := String.mk (List.replicate (min n 10) ' ')

/-- `JSON.stringify(v, null, n)`. -/
def jsonStringifyWith (n : Nat) (v : JSVal) : Option String :=
  jsonStringifyAux (spacesGap n) "" v

/-- `JSON.stringify(v)`. -/
def jsonStringify0 (v : JSVal) : Option String := jsonStringifyWith 0 v

/-- JSON whitespace. -/
def jsonWs (c : Char) : Bool := c == ' ' || c == '\t' || c == '\n' || c == '\r'

/-- Hexadecimal digit value. -/
def hexVal (c : Char) : Option Nat :=
  if c.isDigit then some (c.toNat - 48)
  else if 'a' ≤ c && c ≤ 'f' then some (c.toNat - 87)
  else if 'A' ≤ c && c ≤ 'F' then some (c.toNat - 55)
  else none

/-- Body of a JSON string literal (after the opening quote). -/
def parseJsonStringAux : List Char → Option (List Char × List Char)
  | [] => none
  | '"' :: rest => some ([], rest)
  | '\\' :: e :: rest =>
      if e == '"' then (parseJsonStringAux rest).map (fun p => ('"' :: p.1, p.2))
      else if e == '\\' then (parseJsonStringAux rest).map (fun p => ('\\' :: p.1, p.2))
      else if e == '/' then (parseJsonStringAux rest).map (fun p => ('/' :: p.1, p.2))
      else if e == 'b' then (parseJsonStringAux rest).map (fun p => ('\x08' :: p.1, p.2))
      else if e == 'f' then (parseJsonStringAux rest).map (fun p => ('\x0c' :: p.1, p.2))
      else if e == 'n' then (parseJsonStringAux rest).map (fun p => ('\n' :: p.1, p.2))
      else if e == 'r' then (parseJsonStringAux rest).map (fun p => ('\r' :: p.1, p.2))
      else if e == 't' then (parseJsonStringAux rest).map (fun p => ('\t' :: p.1, p.2))
      else if e == 'u' then
        match rest with
        | a :: b :: c :: d :: r =>
            match hexVal a, hexVal b, hexVal c, hexVal d with
            | some x, some y, some z, some w =>
                (parseJsonStringAux r).map
                  (fun p => (Char.ofNat (((x * 16 + y) * 16 + z) * 16 + w) :: p.1, p.2))
            | _, _, _, _ => none
        | _ => none
      else none
  | c :: rest =>
      if c.toNat < 32 then none
      else (parseJsonStringAux rest).map (fun p => (c :: p.1, p.2))

/-- `-?\d+` with rejection of fractional or exponent continuations (the
model covers the integral JSON numbers the pipeline documents use). -/
def parseJsonInt (cs : List Char) : Option (Int × List Char) :=
  let (neg, cs1) := match cs with
    | '-' :: r => (true, r)
    | _ => (false, cs)
  let (ds, r) := spanDigits cs1
  if ds.isEmpty then none
  else
    match r with
    | '.' :: _ => none
    | 'e' :: _ => none
    | 'E' :: _ => none
    | _ => some ((if neg then -(digitsToNat ds : Int) else (digitsToNat ds : Int)), r)

mutual

/-- One JSON value (fuel decreases on every recursive step; the wrapper
supplies fuel larger than the input length, which always suffices). -/
def parseJsonValue : Nat → List Char → Option (JSVal × List Char)
  | 0, _ => none
  | f + 1, cs0 =>
    let cs := cs0.dropWhile jsonWs
    match cs with
    | [] => none
    | c :: rest =>
      if c == 'n' then (dropLeading rest "ull".toList).map (fun r => (JSVal.vNull, r))
      else if c == 't' then (dropLeading rest "rue".toList).map (fun r => (JSVal.vBool true, r))
      else if c == 'f' then (dropLeading rest "alse".toList).map (fun r => (JSVal.vBool false, r))
      else if c == '"' then (parseJsonStringAux rest).map (fun p => (JSVal.vStr (String.mk p.1), p.2))
      else if c == '[' then parseJsonArrayBody f (rest.dropWhile jsonWs) []
      else if c == Char.ofNat 123 then parseJsonObjectBody f (rest.dropWhile jsonWs) []
      else (parseJsonInt cs).map (fun p => (JSVal.vNum p.1, p.2))

/-- Elements of a JSON array after `[` (accumulator holds the elements
parsed so far, in order). -/
def parseJsonArrayBody : Nat → List Char → List JSVal → Option (JSVal × List Char)
  | 0, _, _ => none
  | _ + 1, ']' :: rest, acc => if acc.isEmpty then some (JSVal.vArr [], rest) else none
  | f + 1, cs, acc =>
    match parseJsonValue f cs with
    | none => none
    | some (v, r1) =>
      match r1.dropWhile jsonWs with
      | ',' :: r2 => parseJsonArrayBody f r2 (acc ++ [v])
      | ']' :: r2 => some (JSVal.vArr (acc ++ [v]), r2)
      | _ => none

/-- Members of a JSON object after the opening brace (later duplicate
keys overwrite earlier ones, as in `JSON.parse`). -/
def parseJsonObjectBody : Nat → List Char → List (String × JSVal) → Option (JSVal × List Char)
  | 0, _, _ => none
  | f + 1, cs, acc =>
    match cs with
    | c :: rest =>
      if c == Char.ofNat 125 then
        if acc.isEmpty then some (JSVal.vObj [], rest) else none
      else if c == '"' then
        match parseJsonStringAux rest with
        | none => none
        | some (kcs, r1) =>
          match r1.dropWhile jsonWs with
          | ':' :: r2 =>
            match parseJsonValue f r2 with
            | none => none
            | some (v, r3) =>
              let acc2 := setObjProp acc (String.mk kcs) v
              match r3.dropWhile jsonWs with
              | ',' :: r4 => parseJsonObjectBody f (r4.dropWhile jsonWs) acc2
              | c2 :: r4 =>
                  if c2 == Char.ofNat 125 then some (JSVal.vObj acc2, r4) else none
              | _ => none
          | _ => none
      else none
    | [] => none

end

/-- `JSON.parse` (returns `none` where JavaScript would throw a
`SyntaxError`). -/
def jsonParse (s : String) : Option JSVal :=
  match parseJsonValue (s.length + 8) s.toList with
  | some (v, rest) => if (rest.dropWhile jsonWs).isEmpty then some v else none
  | none => none

/-! ### Variant Runner reconciliation
(src/src/actors/dataset-schema-generator.ts) -/

/-- One per-variant run record (`RunResult`). -/
structure RunResult where
  variant : String
  success : Bool
  datasetId : Option String
  error : Option String
  runId : Option String
deriving DecidableEq

/-- Result shape of `validateRunResults`. -/
structure RunValidation where
  totalRuns : Nat
  successfulRuns : Nat
  overallSuccess : Bool
  summary : String
deriving DecidableEq

/-- Truthiness of an optional string field (absent and empty are the
falsy cases, as for the JavaScript optionals the records carry). -/
def optStrTruthy : Option String → Bool
  | some s => s != ""
  | none => false

/-- `validateRunResults`: overall success requires at least one
successful run among the results. -/
def validateRunResults (results : List RunResult) : RunValidation :=
  let totalRuns := results.length
  let successfulRuns := results.countP (·.success)
  let overallSuccess : Bool := decide (0 < successfulRuns)
  let summary := toString successfulRuns ++ "/" ++ toString totalRuns ++ " runs successful"
  ⟨totalRuns, successfulRuns, overallSuccess, summary⟩

/-- Terminal run record returned by `client.run(runId).get()`
(only the field the code reads). -/
structure RunInfo where
  defaultDatasetId : Option String
deriving DecidableEq

/-- The dataset a single result contributes in `collectDatasetIds`:
its own `datasetId` when truthy, otherwise — for results carrying a
`runId` — the `defaultDatasetId` of the re-queried terminal record
(a thrown re-query is caught and skipped). -/
def collectFromResult (getRun : String → Except String (Option RunInfo)) (r : RunResult) :
    Option String :=
  if optStrTruthy r.datasetId then r.datasetId
  else if optStrTruthy r.runId then
    match getRun (r.runId.getD "") with
    | .ok (some info) => if optStrTruthy info.defaultDatasetId then info.defaultDatasetId else none
    | .ok none => none
    | .error _ => none
  else none

/-- `collectDatasetIds`: gather dataset ids from every result, including
failed runs whose terminal record still carries one. -/
def collectDatasetIds (getRun : String → Except String (Option RunInfo))
    (results : List RunResult) : List String :=
  results.filterMap (collectFromResult getRun)

/-! ### Pipeline Controller (src/src/index.ts): centralized error
handler and the input-generation retry loop -/

/-- `handleError(context, error)` where `error` is an `Error` instance:
the thrown message is the context followed by the error's message. -/
def handleErrorFromError (context msg : String) : String := context ++ ": " ++ msg

/-- `handleError(context, error)` where `error` is a plain string (or
any non-`Error` value): the source tests `error instanceof Error` and
substitutes `'Unknown error'` for anything else, so the passed text is
discarded. -/
def handleErrorFromString (context : String) (_msg : String) : String :=
  context ++ ": " ++ "Unknown error"

/-- The detail string built (and then discarded by `handleError`) when
the retry loop exhausts its three attempts. -/
def exhaustedDetail (vr : InputValidationResult) : String :=
  "Failed to generate valid inputs after 3 attempts. Only " ++ toString vr.successfulRuns
    ++ "/" ++ toString vr.totalRuns ++ " inputs were valid."

/-- The field-count log reads performed between generation and
validation on every attempt
(`Object.keys(testInputs.minimalInput).length` and its three siblings,
in source order): `Object.keys` throws on a nullish variant, aborting
the whole of `generateTestInputs` through its `catch`. -/
def variantKeysCheck (inputs : TestInputConfig) : Except String Unit :=
  match jsObjectKeys inputs.minimalInput with
  | .error e => .error e
  | .ok _ =>
    match jsObjectKeys inputs.normalInput with
    | .error e => .error e
    | .ok _ =>
      match jsObjectKeys inputs.maximalInput with
      | .error e => .error e
      | .ok _ =>
        match jsObjectKeys inputs.edgeInput with
        | .error e => .error e
        | .ok _ => .ok ()

/-- The `do/while` of `generateTestInputs`: `attempt` is the current
attempt number, the second argument counts the attempts still allowed
after this one (`maxAttempts = 3` gives `2` initially), and the third
is the feedback passed to the generator (`undefined` on the first
attempt).  The generation collaborator is the oracle `gen`, taking the
attempt number and the feedback.  Each attempt generates, performs the
four `Object.keys` field-count log reads (whose `TypeError` on a
nullish variant escapes the loop at once), then validates. -/
def genLoop (actorId : String) (gen : Nat → Option String → TestInputConfig) :
    Nat → Nat → Option String →
    Nat × Except String (TestInputConfig × InputValidationResult)
  | attempt, 0, feedback =>
      let inputs := gen attempt feedback
      match variantKeysCheck inputs with
      | .error e => (attempt, .error e)
      | .ok _ =>
          let vr := validateInputs actorId inputs
          (attempt, .ok (inputs, vr))
  | attempt, remaining + 1, feedback =>
      let inputs := gen attempt feedback
      match variantKeysCheck inputs with
      | .error e => (attempt, .error e)
      | .ok _ =>
          let vr := validateInputs actorId inputs
          if vr.overallSuccess then (attempt, .ok (inputs, vr))
          else genLoop actorId gen (attempt + 1) remaining
            (some (generateValidationFeedback vr))

/-- `generateTestInputs` of the Controller: up to three
generate-then-validate attempts; a `TypeError` thrown by the
field-count log reads aborts at once, on exhaustion the inner
`handleError('Input validation failed', <detail string>)` throws, and
in both cases the surrounding `catch` re-wraps the `Error` through
`handleError('Test input generation failed', error)`.  Returns the
number of attempts performed together with the outcome. -/
def generateTestInputsModel (actorId : String)
    (gen : Nat → Option String → TestInputConfig) : Nat × Except String TestInputConfig :=
  let r := genLoop actorId gen 1 2 none
  match r.2 with
  | .error e => (r.1, .error (handleErrorFromError "Test input generation failed" e))
  | .ok (inputs, vr) =>
    if vr.overallSuccess then (r.1, .ok inputs)
    else
      (r.1, .error (handleErrorFromError "Test input generation failed"
        (handleErrorFromString "Input validation failed" (exhaustedDetail vr))))

/-- Step 1 of `run()` together with the hand-off to Step 2: stages two
to five are abstracted as `rest`, and the boolean records whether
control reached Step 2 (the stage that executes the target workload). -/
def superActorRunModel (actorId : String) (gen : Nat → Option String → TestInputConfig)
    (rest : TestInputConfig → Except String JSVal) : Except String JSVal × Bool :=
  match (generateTestInputsModel actorId gen).2 with
  | .error e => (.error e, false)
  | .ok testInputs => (rest testInputs, true)

/-! ### Schema Validator summary and the Controller's `validateSchema`
stage (src/src/actors/dataset-schema-validator.ts, src/src/index.ts) -/

/-- One failed-dataset diagnostic (`ValidationResult` of the schema
validator; `errors` keeps the raw result values). -/
structure FailedValidation where
  datasetId : String
  isValid : Bool
  errors : List JSVal
  itemCount : Int

/-- The `summary` object of the validator output. -/
structure ValidationSummary where
  validDatasets : Nat
  invalidDatasets : Nat
  notFoundDatasets : Nat
  successRate : ℚ
  totalItems : Int

/-- Query-parameter echo of the validator output. -/
structure QueryParameters where
  daysBack : Nat
  maximumResults : Nat
  minimumResults : Nat
  runsPerUser : Nat

/-- Output shape of `processValidation` (`ValidatorOutput`). -/
structure ValidatorOutput where
  actorId : String
  totalDatasets : Nat
  failedValidationResults : List FailedValidation
  datasetsNotFound : List String
  summary : ValidationSummary
  queryParameters : QueryParameters

/-- The message thrown by the rate branch of the Controller's
`validateSchema` (built, then discarded by `handleError`, which maps
its string argument to `'Unknown error'`). -/
def rateDetail (v : ValidatorOutput) : String :=
  "Validation failed: " ++ toString v.summary.invalidDatasets ++ " out of "
    ++ toString v.totalDatasets ++ " datasets failed validation."

/-- The Controller's `validateSchema` stage after `processValidation`
returned: fail if any dataset failed (success rate below 1), then fail
if no datasets were found, otherwise pass the result through.  Both
failure branches call `handleError('Schema validation failed', <string
detail>)`, whose `instanceof Error` test replaces the string with
`'Unknown error'`. -/
def validateSchemaStep (v : ValidatorOutput) : Except String ValidatorOutput :=
  if 0 < v.totalDatasets ∧ v.summary.successRate < 1 then
    .error (handleErrorFromString "Schema validation failed" (rateDetail v))
  else if v.totalDatasets = 0 then
    .error (handleErrorFromString "Schema validation failed"
      "No datasets found for validation - validation is required and cannot be skipped")
  else .ok v

/-! ### `validateAllDatasets` of the Schema Validator -/

/-- Aggregate returned by `validateAllDatasets`. -/
structure DatasetsValidation where
  validDatasets : Nat
  invalidDatasets : Nat
  notFoundDatasets : List String
  successRate : ℚ
  totalItems : Int
  failedResults : List FailedValidation

/-- `error.includes('Dataset was not found')` over the raw members of a
result's `errors` array (a non-string member makes `includes` throw). -/
def errorsMentionNotFound : List JSVal → Except String Bool
  | [] => .ok false
  | .vStr s :: rest =>
      if strContains s "Dataset was not found" then .ok true
      else errorsMentionNotFound rest
  | .vNull :: _ => .error "Cannot read properties of null (reading includes)"
  | .vUndefined :: _ => .error "Cannot read properties of undefined (reading includes)"
  | _ :: _ => .error "error.includes is not a function"

/-- The per-result processing loop of `validateAllDatasets`,
accumulating (not-found ids, failed diagnostics, total item count). -/
def processValidationResults :
    List JSVal → List String → List FailedValidation → Int →
    Except String (List String × List FailedValidation × Int)
  | [], notFound, failed, total => .ok (notFound, failed, total)
  | r :: rest, notFound, failed, total => do
      let isValid ← jsGetProp r "isValid"
      let icv ← jsGetProp r "itemCount"
      let itemCount : Int := match icv with
        | .vNum n => n
        | _ => 0
      let ev ← jsGetProp r "errors"
      let errors := if jsIsArray ev then arrItems ev else []
      let dv ← jsGetProp r "datasetId"
      let datasetId := match dv with
        | .vStr s => s
        | _ => "unknown"
      let mentioned ← errorsMentionNotFound errors
      if mentioned then
        processValidationResults rest (notFound ++ [datasetId]) failed (total + itemCount)
      else if !jsTruthy isValid then
        processValidationResults rest notFound
          (failed ++ [⟨datasetId, false,
            (if errors.isEmpty then [JSVal.vStr "Unknown validation error"] else errors),
            itemCount⟩])
          (total + itemCount)
      else
        processValidationResults rest notFound failed (total + itemCount)

/-- The `filter(result => result.isValid)` count (property reads can
throw on nullish members, as in the source). -/
def countTruthyProp (k : String) : List JSVal → Except String Nat
  | [] => .ok 0
  | r :: rest => do
      let v ← jsGetProp r k
      let n ← countTruthyProp k rest
      pure (if jsTruthy v then n + 1 else n)

/-- `validateAllDatasets`: one call of the external validation actor
over all dataset ids (the oracle `call` yields the items of the
validation run's dataset).  An empty item list is interpreted as every
dataset having passed.  All thrown errors are re-wrapped by
`handleError('Validation failed', error)`. -/
def validateAllDatasets (call : List String → JSVal → Except String (List JSVal))
    (datasetIds : List String) (schema : JSVal) : Except String DatasetsValidation :=
  match call datasetIds schema with
  | .error e => .error (handleErrorFromError "Validation failed" e)
  | .ok validationResults =>
    if validationResults.isEmpty then
      .ok ⟨datasetIds.length, 0, [], 1, 0, []⟩
    else
      match countTruthyProp "isValid" validationResults with
      | .error e => .error (handleErrorFromError "Validation failed" e)
      | .ok validDatasets =>
        let invalidDatasets := validationResults.length - validDatasets
        match processValidationResults validationResults [] [] 0 with
        | .error e => .error (handleErrorFromError "Validation failed" e)
        | .ok (notFound, failed, totalItems) =>
          let successRate : ℚ :=
            if 0 < validationResults.length then
              (validDatasets : ℚ) / (validationResults.length : ℚ)
            else 0
          .ok ⟨validDatasets, invalidDatasets, notFound, successRate, totalItems, failed⟩

/-! ### Random split and schema generation from production datasets
(src/src/actors/dataset-schema-validator.ts) -/

/-- One sampled dataset (`DatasetInfo`). -/
structure DatasetInfo where
  datasetId : String
  itemCount : Nat
  sampleData : List JSVal

/-- Result shape of `generateSchemaFromDatasets`
(`SchemaGenerationResult`). -/
structure SchemaGenerationResult where
  success : Bool
  schema : Option JSVal
  error : Option String
  datasetsUsed : List DatasetInfo
  validationDatasets : List String

/-- `splitDatasetsRandomly`: shuffle (the comparator-driven permutation
is the oracle `shuffle`), then split at `floor(length / 2)`. -/
def splitDatasetsRandomly (shuffle : List String → List String) (datasetIds : List String) :
    List String × List String :=
  let shuffled := shuffle datasetIds
  let midPoint := shuffled.length / 2
  (shuffled.take midPoint, shuffled.drop midPoint)

/-- The sampling loop of `generateSchemaFromDatasets` (per-dataset
failures are caught and skipped). -/
def sampleGenerationDatasets (sample : String → Except String DatasetInfo) :
    List String → List DatasetInfo
  | [] => []
  | d :: rest =>
      match sample d with
      | .ok info => info :: sampleGenerationDatasets sample rest
      | .error _ => sampleGenerationDatasets sample rest

/-- `generateSchemaFromDatasets`: query Redash for dataset ids (oracle
`query`), split 50/50 into generation and validation halves, sample the
generation half (oracle `sample`), and infer a schema from the samples
(oracle `genFromSamples`); every thrown error is converted to a failed
result by the surrounding `catch`. -/
def generateSchemaFromDatasets (shuffle : List String → List String)
    (query : Except String (List String)) (sample : String → Except String DatasetInfo)
    (genFromSamples : List DatasetInfo → Except String JSVal)
    (actorId : String) : SchemaGenerationResult :=
  match query with
  | .error e => ⟨false, none, some e, [], []⟩
  | .ok datasetIds =>
    if datasetIds.isEmpty then
      ⟨false, none,
        some ("No datasets found for Actor " ++ actorId
          ++ ". Please ensure the Actor has recent dataset activity or use the test input method instead."),
        [], []⟩
    else
      let halves := splitDatasetsRandomly shuffle datasetIds
      let datasetsWithSamples := sampleGenerationDatasets sample halves.1
      if datasetsWithSamples.isEmpty then
        ⟨false, none,
          some "Failed to sample data from any datasets. Please check dataset accessibility.",
          [], halves.2⟩
      else
        match genFromSamples datasetsWithSamples with
        | .ok schema => ⟨true, some schema, none, datasetsWithSamples, halves.2⟩
        | .error e => ⟨false, none, some e, [], []⟩

/-! ### Schema Refiner (`LLMSchemaEnhancer.enhanceSchema`) -/

/-- `EnhancementInput` (the Controller always passes a boolean
`generateViews`, defaulting it with `|| false`). -/
structure EnhancementInput where
  actorName : String
  datasetSchema : JSVal
  generateViews : Bool

/-- `EnhancementResult`. -/
structure EnhancementResult where
  success : Bool
  enhancedSchema : Option JSVal
  error : Option String

/-- The request object whose serialization is measured against the
1 MiB bound (`JSON.stringify(input)`; lengths are counted in
characters, which agrees with UTF-16 units on the ASCII/BMP content
involved). -/
def enhanceInputJson (i : EnhancementInput) : JSVal :=
  .vObj [("actorName", .vStr i.actorName), ("datasetSchema", i.datasetSchema),
         ("generateViews", .vBool i.generateViews)]

/-- JavaScript whitespace trim of a character list. -/
def trimWsList (cs : List Char) : List Char :=
  ((cs.dropWhile Char.isWhitespace).reverse.dropWhile Char.isWhitespace).reverse

/-- The fenced-block extraction
`content.match(/```json\s*([\s\S]*?)\s*```/)`: the capture lies between
the first ` ```json ` tag and the next ` ``` `, with surrounding
whitespace stripped. -/
def extractJsonBlock (content : String) : Option String :=
  match splitAtSub "```json".toList content.toList with
  | none => none
  | some (_, afterTag) =>
    match splitAtSub "```".toList afterTag with
    | none => none
    | some (raw, _) => some (String.mk (trimWsList raw))

/-- Post-network processing of the OpenRouter response body: structure
check, JSON extraction from the fenced block or the raw body, and the
Apify-specification check (`actorSpecification` and `fields` present). -/
def processEnhanceData (data : JSVal) : EnhancementResult :=
  if !jsTruthy data then
    ⟨false, none, some "Invalid response structure from OpenRouter service"⟩
  else
    let choices := jsGetSafe data "choices"
    if !jsTruthy choices then
      ⟨false, none, some "Invalid response structure from OpenRouter service"⟩
    else
      let content := jsGetSafe (jsGetSafe (arrIdx choices 0) "message") "content"
      if !jsTruthy content then
        ⟨false, none, some "Invalid response structure from OpenRouter service"⟩
      else
        match content with
        | .vStr s =>
          let toParse := (extractJsonBlock s).getD s
          match jsonParse toParse with
          | none =>
              ⟨false, none,
                some "Failed to parse enriched schema from Claude response: SyntaxError"⟩
          | some enriched =>
            match jsGetProp enriched "actorSpecification" with
            | .error m => ⟨false, none, some m⟩
            | .ok aspec =>
              if !jsTruthy aspec then
                ⟨false, none,
                  some "Enriched schema does not follow Apify Actor specification format"⟩
              else if !jsTruthy (jsGetSafe enriched "fields") then
                ⟨false, none,
                  some "Enriched schema does not follow Apify Actor specification format"⟩
              else ⟨true, some enriched, none⟩
        | _ => ⟨false, none, some "content.match is not a function"⟩

/-- `enhanceSchema` of the Schema Refiner.  The OpenRouter collaborator
is the oracle `net` (receiving the actor name, the draft schema and the
views flag that determine the prompt, whose wording is out of scope);
an oracle error covers both a rejected fetch and a non-ok HTTP status.
The boolean of the result records whether the network call was made. -/
def enhanceSchema (net : String → JSVal → Bool → Except String JSVal)
    (i : EnhancementInput) : EnhancementResult × Bool :=
  if !(i.actorName != "") || !jsTruthy i.datasetSchema then
    (⟨false, none, some "Missing required input: actorName and datasetSchema are required"⟩, false)
  else
    let f := jsGetSafe i.datasetSchema "fields"
    let schemaFields := if jsTruthy f then f else jsGetSafe i.datasetSchema "properties"
    if !jsTruthy schemaFields || jsTypeof schemaFields != "object" then
      (⟨false, none, some "Invalid datasetSchema: must contain a \"fields\" or \"properties\" object"⟩,
        false)
    else
      let inputSize := ((jsonStringify0 (enhanceInputJson i)).getD "").length
      if inputSize > 1024 * 1024 then
        (⟨false, none,
          some ("Input too large: " ++ toString inputSize
            ++ " bytes exceeds maximum allowed size of " ++ toString (1024 * 1024) ++ " bytes")⟩,
          false)
      else
        let promptSize := ((jsonStringify0 i.datasetSchema).getD "").length
        if promptSize > 500 * 1024 then
          (⟨false, none,
            some ("Dataset schema too large: " ++ toString promptSize
              ++ " bytes exceeds maximum allowed size of " ++ toString (500 * 1024) ++ " bytes")⟩,
            false)
        else
          match net i.actorName i.datasetSchema i.generateViews with
          | .error e => (⟨false, none, some e⟩, true)
          | .ok data => (processEnhanceData data, true)

/-- The local-rejection condition of `enhanceSchema`, read off the
sequence of guards before the network call. -/
def enhanceGateRejects (i : EnhancementInput) : Bool :=
  let f := jsGetSafe i.datasetSchema "fields"
  let schemaFields := if jsTruthy f then f else jsGetSafe i.datasetSchema "properties"
  (!(i.actorName != "") || !jsTruthy i.datasetSchema)
    || (!jsTruthy schemaFields || jsTypeof schemaFields != "object")
    || ((jsonStringify0 (enhanceInputJson i)).getD "").length > 1024 * 1024
    || ((jsonStringify0 i.datasetSchema).getD "").length > 500 * 1024

/-! ### Publisher (`CreatePRService`, the unnamed create-pr-service
source file) -/

/-- `updateActorJsonSurgically` on the parsed document: remove a truthy
top-level `views`, then point `storages.dataset` at the new artifact
(`./dataset_schema.json`), creating `storages` when falsy.  Assignment
on a primitive throws (the sources are ES modules, hence strict mode);
a named property assigned to an array is dropped again by
`JSON.stringify`, so an array `storages` passes through unchanged. -/
def updateParsedActorJson : JSVal → Except String JSVal
  | .vNull => .error "Cannot read properties of null (reading views)"
  | .vUndefined => .error "Cannot read properties of undefined (reading views)"
  | .vObj fs =>
      let fs1 := if jsTruthy (objLookup fs "views") then removeObjProp fs "views" else fs
      let storages := objLookup fs1 "storages"
      if !jsTruthy storages then
        .ok (.vObj (setObjProp fs1 "storages" (.vObj [("dataset", .vStr "./dataset_schema.json")])))
      else
        match storages with
        | .vObj sfs =>
            .ok (.vObj (setObjProp fs1 "storages"
              (.vObj (setObjProp sfs "dataset" (.vStr "./dataset_schema.json")))))
        | .vArr xs => .ok (.vObj (setObjProp fs1 "storages" (.vArr xs)))
        | _ => .error "Cannot create property dataset"
  | .vArr xs => .ok (.vArr xs)
  | _ => .error "Cannot create property storages"

/-- `updateActorJsonSurgically`: parse the original metadata document,
apply the two edits, and re-serialize with
`JSON.stringify(actorJson, null, 4)`. -/
def updateActorJsonSurgically (originalContent : String) : Except String String :=
  match jsonParse originalContent with
  | none => .error "Invalid JSON in actor.json: SyntaxError"
  | some v =>
      match updateParsedActorJson v with
      | .error e => .error e
      | .ok v2 => .ok ((jsonStringifyWith 4 v2).getD "undefined")

/-- Repository reference (`GitHubRepository`). -/
structure GitHubRepository where
  owner : String
  repo : String

/-- Pull-request creation payload (`CreatePRRequest`). -/
structure CreatePRRequest where
  title : String
  body : String
  head : String
  base : String

/-- Pull request as returned by the source-control API (`GitHubPR`). -/
structure GitHubPR where
  id : Nat
  number : Nat
  title : String
  body : String
  state : String
  html_url : String
  created_at : String
  updated_at : String

/-- One entry of a repository directory listing. -/
structure DirItem where
  name : String
  isDir : Bool

/-- Result of a `getContent` call: a file (content already decoded from
base64) or a directory listing. -/
inductive ContentEntry where
  | file (content : String) : ContentEntry
  | dir (items : List DirItem) : ContentEntry

/-- The current head commit of a branch (`sha` and its tree). -/
structure CommitInfo where
  sha : String
  treeSha : String

/-- One entry of the tree update sent to `git.createTree`. -/
structure TreeEntry where
  path : String
  mode : String
  tpe : String
  sha : String

/-- Oracle for the source-control API (Octokit): each field is one REST
operation, taking owner and repo first; failures are thrown errors. -/
structure GitHubClient where
  repoDefaultBranch : String → String → Except String String
  getContent : String → String → String → String → Except String ContentEntry
  branchHeadSha : String → String → String → Except String String
  createRef : String → String → String → String → Except String Unit
  createBlob : String → String → String → Except String String
  getCommit : String → String → String → Except String CommitInfo
  createTree : String → String → String → List TreeEntry → Except String String
  createCommit : String → String → String → String → List String → Except String String
  updateRef : String → String → String → String → Except String Unit
  pullsCreate : String → String → CreatePRRequest → Except String GitHubPR

/-- Input of the Publisher (`CreatePRInput`). -/
structure CreatePRInput where
  datasetSchema : JSVal
  githubLink : String
  githubToken : String
  generateViews : Bool
  actorTechnicalName : Option String

/-- Output of the Publisher (`CreatePROutput`). -/
structure CreatePROutput where
  success : Bool
  prUrl : Option String
  error : Option String
  prInfo : Option GitHubPR

/-- Exception-style sequencing (`await` under `try/catch`). -/
def ebind (e : Except String α) (k : α → Except String β) : Except String β :=
  match e with
  | .error m => .error m
  | .ok a => k a

/-- Re-wrap a thrown error with a stage context, as the service's
`handleError(context, error)` does for `Error` instances. -/
def wrapErr (context : String) (e : Except String α) : Except String α :=
  match e with
  | .error m => .error (handleErrorFromError context m)
  | .ok a => .ok a

/-- Split a character list on a separator character. -/
def splitOnChar (sep : Char) : List Char → List (List Char)
  | [] => [[]]
  | c :: rest =>
      let r := splitOnChar sep rest
      if c == sep then [] :: r
      else
        match r with
        | [] => [[c]]
        | h :: t => (c :: h) :: t

/-- `parseGitHubUrl`: a simplified `new URL` adequate for repository
links — scheme, host, then the pathname split on `/` with empty parts
dropped; at least owner and repo must remain.  An unparsable URL yields
`null` (the `catch` of the source). -/
def parseGitHubUrl (url : String) : Option GitHubRepository :=
  match splitAtSub "://".toList url.toList with
  | none => none
  | some (scheme, rest) =>
    if scheme.isEmpty then none
    else
      let (_, pathAndMore) := rest.span (fun c => c ≠ '/')
      let pathname := pathAndMore.takeWhile (fun c => c ≠ '?' ∧ c ≠ '#')
      let parts := (splitOnChar '/' pathname).filter (fun p => !p.isEmpty)
      match parts with
      | ow :: rp :: _ => some ⟨String.mk ow, String.mk rp⟩
      | _ => none

/-- `getDefaultBranch`. -/
def getDefaultBranch (c : GitHubClient) (owner repo : String) : Except String String :=
  wrapErr "Failed to get default branch" (c.repoDefaultBranch owner repo)

/-- One guarded content probe of the `findActorJson` search (an error
or a non-file result is treated as not found). -/
def tryFile (c : GitHubClient) (owner repo branch path : String) : Option (String × String) :=
  match c.getContent owner repo path branch with
  | .ok (.file content) => some (content, path)
  | _ => none

/-- The fixed candidate paths tried first by `findActorJson`. -/
def searchPaths : List String :=
  ["actor.json", ".actor/actor.json", "src/actor.json", "lib/actor.json",
   "dist/actor.json", "build/actor.json"]

/-- Search the sub-directories of one monorepo directory for
`<dir>/<name>/actor.json`. -/
def dirSearch (c : GitHubClient) (owner repo branch dir : String)
    (mk : String → String) : Option (String × String) :=
  match c.getContent owner repo dir branch with
  | .ok (.dir items) =>
      items.findSome? (fun it => if it.isDir then tryFile c owner repo branch (mk it.name) else none)
  | _ => none

/-- The `actors/` search: try `actors/<name>/.actor/actor.json`, then
`actors/<name>/actor.json` — where, as in the source, a hit on the
latter is reported under the dotted path variable. -/
def actorsDirSearch (c : GitHubClient) (owner repo branch : String) : Option (String × String) :=
  match c.getContent owner repo "actors" branch with
  | .ok (.dir items) =>
      items.findSome? (fun it =>
        if it.isDir then
          let dotted := "actors/" ++ it.name ++ "/.actor/actor.json"
          match tryFile c owner repo branch dotted with
          | some hit => some hit
          | none =>
            let direct := "actors/" ++ it.name ++ "/actor.json"
            match c.getContent owner repo direct branch with
            | .ok (.file content) => some (content, dotted)
            | _ => none
        else none)
  | _ => none

/-- `findActorJson`: ordered search through the fixed paths, the
`packages`, `apps` and `actors` trees, and the remaining monorepo
directories; a miss everywhere throws the not-found error, re-wrapped
by `handleError('Failed to find actor.json', ...)`. -/
def findActorJson (c : GitHubClient) (owner repo branch : String) :
    Except String (String × String) :=
  match searchPaths.findSome? (tryFile c owner repo branch) with
  | some hit => .ok hit
  | none =>
    match dirSearch c owner repo branch "packages" (fun n => "packages/" ++ n ++ "/actor.json") with
    | some hit => .ok hit
    | none =>
      match dirSearch c owner repo branch "apps" (fun n => "apps/" ++ n ++ "/actor.json") with
      | some hit => .ok hit
      | none =>
        match actorsDirSearch c owner repo branch with
        | some hit => .ok hit
        | none =>
          match (["libs", "modules", "services", "components"]).findSome?
              (fun d => dirSearch c owner repo branch d (fun n => d ++ "/" ++ n ++ "/actor.json")) with
          | some hit => .ok hit
          | none =>
              .error (handleErrorFromError "Failed to find actor.json"
                "actor.json file not found in any common locations. Please ensure the repository contains an actor.json file.")

/-- `mapFieldType`: lower-case the declared type and map it onto the
JSON-Schema types, defaulting to `string` (a non-string type value
makes `toLowerCase` throw). -/
def mapFieldType : JSVal → Except String String
  | .vStr s =>
      let l := s.toLower
      .ok (if l == "string" then "string"
        else if l == "number" then "number"
        else if l == "integer" then "number"
        else if l == "boolean" then "boolean"
        else if l == "object" then "object"
        else if l == "array" then "array"
        else if l == "date" then "string"
        else if l == "datetime" then "string"
        else "string")
  | .vNull => .error "Cannot read properties of null (reading toLowerCase)"
  | .vUndefined => .error "Cannot read properties of undefined (reading toLowerCase)"
  | _ => .error "type.toLowerCase is not a function"

/-- `formatFieldLabel`: space before every capital, capitalize the
first character, trim. -/
def formatFieldLabel (s : String) : String :=
  let e := s.data.foldr (fun c acc => if c.isUpper then ' ' :: c :: acc else c :: acc) []
  let u := match e with
    | [] => []
    | c :: r => c.toUpper :: r
  String.mk (trimWsList u)

/-- A string-valued `name` member, or the exception JavaScript would
throw on invoking a string method on it. -/
def requireStringName (v : JSVal) (opName : String) : Except String String :=
  match v with
  | .vStr s => .ok s
  | .vNull => .error ("Cannot read properties of null (reading " ++ opName ++ ")")
  | .vUndefined => .error ("Cannot read properties of undefined (reading " ++ opName ++ ")")
  | _ => .error ("name." ++ opName ++ " is not a function")

/-- `required?.includes(name)`: nullish receivers short-circuit to
`undefined`, arrays use strict membership, strings use substring
containment, anything else throws. -/
def jsOptIncludes (base x : JSVal) : Except String JSVal :=
  match base with
  | .vNull => .ok .vUndefined
  | .vUndefined => .ok .vUndefined
  | .vArr xs => .ok (.vBool (xs.any (fun e => jsStrictEq e x)))
  | .vStr s => .ok (.vBool (strContains s (jsToString x)))
  | _ => .error "required.includes is not a function"

/-- The per-field `properties` accumulation of
`generateViewsFromFields` (format from type and name heuristics, label
from `formatFieldLabel`). -/
def viewsProps : List JSVal → List (String × JSVal) →
    Except String (List (String × JSVal))
  | [], acc => .ok acc
  | f :: rest, acc => do
      let t ← jsGetProp f "type"
      let n ← jsGetProp f "name"
      let fmt ←
        if jsStrictEq t (.vStr "number") then pure "number"
        else do
          let nameStr ← requireStringName n "toLowerCase"
          if strContains nameStr.toLower "url" then pure "link"
          else if jsStrictEq t (.vStr "date") || strContains nameStr.toLower "date" then pure "date"
          else pure "text"
      let nameStr ← requireStringName n "replace"
      viewsProps rest (setObjProp acc nameStr
        (.vObj [("label", .vStr (formatFieldLabel nameStr)), ("format", .vStr fmt)]))

/-- `generateViewsFromFields`: derive the default overview view (one
row per field). -/
def generateViewsFromFields (fields : List JSVal) : Except String JSVal := do
  let names ← fields.mapM (fun f => jsGetProp f "name")
  let props ← viewsProps fields []
  pure (.vObj [("overview", .vObj
    [("title", .vStr "Overview"), ("description", .vStr ""),
     ("transformation", .vObj [("fields", .vArr names)]),
     ("display", .vObj [("component", .vStr "table"), ("properties", .vObj props)])])])

/-- The `input.fields.forEach` of `generateDatasetSchema`, accumulating
the JSON-Schema `properties` object and the `required` list. -/
def dsFields : List JSVal → List (String × JSVal) → List JSVal →
    Except String (List (String × JSVal) × List JSVal)
  | [], props, reqs => .ok (props, reqs)
  | fld :: rest, props, reqs => do
      let t ← jsGetProp fld "type"
      let mt ← mapFieldType t
      let d := jsGetSafe fld "description"
      let n := jsGetSafe fld "name"
      let r := jsGetSafe fld "required"
      let e := jsGetSafe fld "example"
      let fd0 := [("type", JSVal.vStr mt),
        ("description", if jsTruthy d then d else .vStr ("The " ++ jsToString n ++ " field")),
        ("nullable", JSVal.vBool (!jsTruthy r))]
      let fd1 := match e with
        | .vUndefined => fd0
        | ex => fd0 ++ [("example", ex)]
      let fd2 := if jsStrictEq t (.vStr "array")
        then fd1 ++ [("items", JSVal.vObj [("type", .vStr "string")])] else fd1
      let fd3 := if jsStrictEq t (.vStr "object")
        then fd2 ++ [("properties", JSVal.vObj []), ("required", JSVal.vArr [])] else fd2
      dsFields rest (setObjProp props (jsToString n) (.vObj fd3))
        (if jsTruthy r then reqs ++ [n] else reqs)

/-- `generateDatasetSchema` (fields-array shape of the draft schema). -/
def generateDatasetSchema (input views : JSVal) : Except String JSVal :=
  if !jsTruthy input then .error "Invalid input: fields must be an array"
  else
    let f := jsGetSafe input "fields"
    if !jsTruthy f || !jsIsArray f then .error "Invalid input: fields must be an array"
    else do
      let pr ← dsFields (arrItems f) [] []
      let fieldsObj := JSVal.vObj
        [("$schema", .vStr "http://json-schema.org/draft-07/schema#"),
         ("type", .vStr "object"), ("properties", .vObj pr.1), ("required", .vArr pr.2),
         ("additionalProperties", .vBool true)]
      let base := [("actorSpecification", JSVal.vNum 1), ("fields", fieldsObj)]
      pure (.vObj (if jsTruthy views then base ++ [("views", views)] else base))

/-- `generateDatasetSchemaFromJsonSchema`. -/
def generateDatasetSchemaFromJsonSchema (jsonSchema views : JSVal) : JSVal :=
  let base := [("actorSpecification", JSVal.vNum 1), ("fields", jsonSchema)]
  .vObj (if jsTruthy views then base ++ [("views", views)] else base)

/-- The `fieldsForViews` records built from `Object.entries` of a
`properties` object (name, resolved type, membership in `required`,
defaulted description, example). -/
def mkFieldRecords (reqVal : JSVal) : List (String × JSVal) → Except String (List JSVal)
  | [] => .ok []
  | (name, prop) :: rest => do
      let pt ← jsGetProp prop "type"
      let tVal := if jsIsArray pt then arrIdx pt 0 else pt
      let inc ← jsOptIncludes reqVal (.vStr name)
      let d := jsGetSafe prop "description"
      let recd := JSVal.vObj
        [("name", .vStr name), ("type", tVal), ("required", .vBool (jsTruthy inc)),
         ("description", if jsTruthy d then d else .vStr ("The " ++ name ++ " field")),
         ("example", jsGetSafe prop "example")]
      let tail ← mkFieldRecords reqVal rest
      pure (recd :: tail)

/-- Step 5 of the Publisher's `run`: normalize the supplied draft
schema (complete JSON Schema, fields array, or `fields.properties`
wrapper) into the dataset-schema artifact, reusing the metadata file's
views when present and deriving the default overview otherwise. -/
def processDatasetSchema (ds originalViews : JSVal) : Except String JSVal := do
  let p ← jsGetProp ds "properties"
  let t := jsGetSafe ds "type"
  if jsTruthy p && jsStrictEq t (.vStr "object") then
    if jsTruthy originalViews then
      pure (generateDatasetSchemaFromJsonSchema ds originalViews)
    else do
      let flds ← mkFieldRecords (jsGetSafe ds "required") (jsEntries p)
      let views ← generateViewsFromFields flds
      pure (generateDatasetSchemaFromJsonSchema ds views)
  else
    let f := jsGetSafe ds "fields"
    if jsTruthy f && jsIsArray f then
      if jsTruthy originalViews then generateDatasetSchema ds originalViews
      else do
        let views ← generateViewsFromFields (arrItems f)
        generateDatasetSchema ds views
    else
      let fp := jsGetSafe f "properties"
      if jsTruthy f && jsTruthy fp then
        let reqValue := if jsTruthy (jsGetSafe f "required") then jsGetSafe f "required"
          else JSVal.vArr []
        let addl := jsGetSafe f "additionalProperties"
        let sch := jsGetSafe f "$schema"
        let jsonSchema := JSVal.vObj
          [("type", .vStr "object"), ("properties", fp), ("required", reqValue),
           ("additionalProperties", if jsTruthy addl then addl else .vBool true),
           ("$schema", if jsTruthy sch then sch else .vStr "http://json-schema.org/draft-07/schema#")]
        if jsTruthy originalViews then
          pure (generateDatasetSchemaFromJsonSchema jsonSchema originalViews)
        else do
          let flds ← mkFieldRecords reqValue (jsEntries fp)
          let views ← generateViewsFromFields flds
          pure (generateDatasetSchemaFromJsonSchema jsonSchema views)
      else
        .error "Invalid dataset schema input: must be either a complete JSON Schema with properties or an object with fields array"

/-- Step 4 of `run`: the views found (if any) in the original metadata
under `storages?.dataset?.views`, `null` otherwise; the initial
`storages` read throws on a nullish document. -/
def extractOriginalViews (actorJson : JSVal) : Except String JSVal :=
  match jsGetProp actorJson "storages" with
  | .error e => .error e
  | .ok s =>
      let w := jsGetSafe (jsGetSafe s "dataset") "views"
      .ok (if jsTruthy w then w else .vNull)

/-- The logging read `Object.keys(datasetSchema.fields.properties)`,
which throws when `properties` is nullish. -/
def keysCheck (ds : JSVal) : Except String Unit :=
  match jsGetProp ds "fields" with
  | .error e => .error e
  | .ok f =>
      match jsGetProp f "properties" with
      | .error e => .error e
      | .ok p =>
          match jsObjectKeys p with
          | .error e => .error e
          | .ok _ => .ok ()

/-- `createBranch`. -/
def createBranch (c : GitHubClient) (owner repo branchName fromBranch : String) :
    Except String Unit :=
  wrapErr "Failed to create branch"
    (ebind (c.branchHeadSha owner repo fromBranch) (fun sha =>
      c.createRef owner repo ("refs/heads/" ++ branchName) sha))

/-- The blob-creation loop of `commitFiles`, yielding the tree
entries. -/
def createBlobEntries (c : GitHubClient) (owner repo : String) :
    List (String × String) → Except String (List TreeEntry)
  | [] => .ok []
  | f :: rest =>
      ebind (c.createBlob owner repo f.2) (fun sha =>
        ebind (createBlobEntries c owner repo rest) (fun tail =>
          .ok (⟨f.1, "100644", "blob", sha⟩ :: tail)))

/-- `commitFiles`: blobs for each file, one tree layered on the current
head tree, one commit, and the branch-ref update — all under the
`handleError('Failed to commit files', ...)` wrapper. -/
def commitFiles (c : GitHubClient) (owner repo branch : String)
    (files : List (String × String)) (message : String) : Except String Unit :=
  wrapErr "Failed to commit files"
    (ebind (createBlobEntries c owner repo files) (fun entries =>
      ebind (c.getCommit owner repo branch) (fun info =>
        ebind (c.createTree owner repo info.treeSha entries) (fun newTree =>
          ebind (c.createCommit owner repo message newTree [info.sha]) (fun newCommit =>
            c.updateRef owner repo ("heads/" ++ branch) newCommit)))))

/-- `createPullRequest`. -/
def createPullRequest (c : GitHubClient) (owner repo : String) (pr : CreatePRRequest) :
    Except String GitHubPR :=
  wrapErr "Failed to create pull request" (c.pullsCreate owner repo pr)

/-- `path.replace(/actor\.json$/, 'dataset_schema.json')`. -/
def datasetSchemaPathOf (path : String) : String :=
  match dropLeading path.data.reverse "actor.json".data.reverse with
  | some restRev => String.mk restRev.reverse ++ "dataset_schema.json"
  | none => path

/-- The commit message of Step 8. -/
def commitMessageFor (nameVal : JSVal) : String :=
  "Add dataset schema for " ++ (if jsTruthy nameVal then jsToString nameVal else "actor")
    ++ "\n\n- Add dataset_schema.json with field definitions and views\n- Update actor.json to reference dataset schema\n- Remove views from actor.json (moved to dataset schema)"

/-- The pull-request title of Step 9. -/
def prTitleFor (nameVal : JSVal) : String :=
  "Add dataset schema: " ++ (if jsTruthy nameVal then jsToString nameVal else "Actor")

/-- The pull-request body of Step 9. -/
def prBodyText : String :=
  "This PR adds a dataset schema for the actor.\n\n**Changes:**\n- Added `dataset_schema.json` with field definitions\n- Updated `actor.json` to reference the dataset schema\n- Added views configuration for the dataset\n\n**Generated by Apify Dataset Schema SuperActor**"

/-- The body of `CreatePRService.run` inside its `try`: the strictly
sequential steps from URL parsing through pull-request creation.  The
branch name uses the current time `now` (`Date.now()`). -/
def createPRRunInner (c : GitHubClient) (now : Nat) (inp : CreatePRInput) :
    Except String CreatePROutput :=
  ebind (match parseGitHubUrl inp.githubLink with
          | some ri => .ok ri
          | none => .error "Invalid GitHub URL provided") (fun repoInfo =>
  ebind (getDefaultBranch c repoInfo.owner repoInfo.repo) (fun defaultBranch =>
  ebind (findActorJson c repoInfo.owner repoInfo.repo defaultBranch) (fun found =>
  ebind (match jsonParse found.1 with
          | some v => .ok v
          | none => .error "Unexpected token in JSON") (fun originalActorJson =>
  ebind (jsGetProp originalActorJson "name") (fun nameVal =>
  ebind (extractOriginalViews originalActorJson) (fun originalViews =>
  ebind (processDatasetSchema inp.datasetSchema originalViews) (fun datasetSchema =>
  ebind (keysCheck datasetSchema) (fun _ =>
  ebind (updateActorJsonSurgically found.1) (fun updatedContent =>
  ebind (match jsonParse updatedContent with
          | some v => .ok v
          | none => .error "Unexpected token in JSON") (fun _updatedActorJson =>
  let branchName := "dataset-from-ai-" ++ toString now
  ebind (createBranch c repoInfo.owner repoInfo.repo branchName defaultBranch) (fun _ =>
  let files := [(found.2, updatedContent),
                (datasetSchemaPathOf found.2, (jsonStringifyWith 2 datasetSchema).getD "")]
  ebind (commitFiles c repoInfo.owner repoInfo.repo branchName files
          (commitMessageFor nameVal)) (fun _ =>
  ebind (createPullRequest c repoInfo.owner repoInfo.repo
          ⟨prTitleFor nameVal, prBodyText, branchName, defaultBranch⟩) (fun prResult =>
  .ok ⟨true, some prResult.html_url, none, some prResult⟩)))))))))))))

/-- `CreatePRService.run`: the `try/catch` around the steps — any
thrown error becomes a failed output with no pull-request
information. -/
def createPRRun (c : GitHubClient) (now : Nat) (inp : CreatePRInput) : CreatePROutput :=
  match createPRRunInner c now inp with
  | .ok out => out
  | .error e => ⟨false, none, some e, none⟩

/-! ### Derived predicates and concrete scenarios used by the claim
statements and witnesses -/

/-- Whether `validateGoogleMapsInput` passes a candidate (a thrown
property read counts as a failure, as in `validateInputs`). -/
def googleMapsPasses (input : JSVal) : Bool :=
  match validateGoogleMapsInput input with
  | .ok r => r.success
  | .error _ => false

/-- A generation oracle whose four variants are all the number `1`:
truthy (so consistent with the generation collaborator's own presence
check) and safe under `Object.keys`, but not objects, so every attempt
validates 0/4 and the loop exhausts. -/
def genAlwaysBad : Nat → Option String → TestInputConfig :=
  fun _ _ => ⟨.vNum 1, .vNum 1, .vNum 1, .vNum 1, "t"⟩

/-- A generation oracle whose first attempt already has two plain
objects among the variants (2/4 valid, `overallOk`; the numeric
variants pass the `Object.keys` log reads unharmed). -/
def genGoodFirst : Nat → Option String → TestInputConfig :=
  fun _ _ => ⟨.vObj [], .vObj [], .vNum 1, .vNum 1, "t"⟩

/-- A generation oracle producing a `null` variant: the field-count log
read `Object.keys(testInputs.minimalInput).length` throws a `TypeError`
on the first attempt. -/
def genNullVariant : Nat → Option String → TestInputConfig :=
  fun _ _ => ⟨.vNull, .vNull, .vNull, .vNull, "t"⟩

/-- A stand-in for stages two to five of the Controller. -/
def restStages : TestInputConfig → Except String JSVal := fun _ => .ok .vNull

/-- Whether the re-query path of `collectDatasetIds` yields a handle
for a result: a truthy `runId` whose terminal record carries a truthy
`defaultDatasetId`. -/
def requeryYields (getRun : String → Except String (Option RunInfo)) (r : RunResult) : Bool :=
  optStrTruthy r.runId &&
    (match getRun (r.runId.getD "") with
     | .ok (some info) => optStrTruthy info.defaultDatasetId
     | _ => false)

/-- Re-query oracle of the concrete scenario: run `r2` still carries a
dataset in its terminal record. -/
def requeryOracleW : String → Except String (Option RunInfo) :=
  fun rid => if rid == "r2" then .ok (some ⟨some "d2"⟩) else .ok none

/-- Concrete four-variant outcome: one success with a handle, three
failures of which one carries a run id with a recoverable handle. -/
def runResultsW : List RunResult :=
  [⟨"minimal", true, some "d1", none, some "r1"⟩,
   ⟨"normal", false, none, some "run failed", some "r2"⟩,
   ⟨"maximal", false, none, some "run failed", none⟩,
   ⟨"edge", false, none, some "run failed", none⟩]

/-- A validator outcome with nine of ten datasets valid. -/
def validatorOutput910 : ValidatorOutput :=
  ⟨"t", 10, [], [], ⟨9, 1, 0, (9 : ℚ) / 10, 0⟩, ⟨5, 10, 1, 1⟩⟩

/-- A validator outcome with zero datasets examined. -/
def validatorOutputZero : ValidatorOutput :=
  ⟨"t", 0, [], [], ⟨0, 0, 0, 0, 0⟩, ⟨5, 10, 1, 1⟩⟩

/-- A validator outcome with all ten datasets valid. -/
def validatorOutputAllValid : ValidatorOutput :=
  ⟨"t", 10, [], [], ⟨10, 0, 0, 1, 0⟩, ⟨5, 10, 1, 1⟩⟩

/-- A metadata document for the concrete scenario (its
`storages.dataset.views` carries a view configuration). -/
def actorJsonW : String :=
  "\x7b\"name\":\"demo\",\"storages\":\x7b\"dataset\":\x7b\"views\":\x7b\"overview\":true\x7d\x7d\x7d\x7d"

/-- A source-control client for which every step up to and including
the branch-ref update succeeds and pull-request creation throws. -/
def ghClientW : GitHubClient where
  repoDefaultBranch := fun _ _ => .ok "main"
  getContent := fun _ _ path _ =>
    if path == "actor.json" then .ok (.file actorJsonW) else .error "Not Found"
  branchHeadSha := fun _ _ _ => .ok "headsha"
  createRef := fun _ _ _ _ => .ok ()
  createBlob := fun _ _ _ => .ok "blobsha"
  getCommit := fun _ _ _ => .ok ⟨"commitsha", "treesha"⟩
  createTree := fun _ _ _ _ => .ok "newtreesha"
  createCommit := fun _ _ _ _ _ => .ok "newcommitsha"
  updateRef := fun _ _ _ _ => .ok ()
  pullsCreate := fun _ _ _ => .error "API rate limit exceeded"

/-- A publisher input carrying a complete JSON-Schema draft. -/
def prInputW : CreatePRInput :=
  ⟨.vObj [("type", .vStr "object"),
          ("properties", .vObj [("a", .vObj [("type", .vStr "string")])])],
   "https://github.com/me/repo", "token", false, none⟩

/-- An offline network oracle. -/
def netOff : String → JSVal → Bool → Except String JSVal := fun _ _ _ => .error "offline"

/-- An enhancement input with an empty actor name, a draft schema
exposing a `fields` object, and serialized sizes far below both
bounds. -/
def enhanceInputEmptyName : EnhancementInput := ⟨"", .vObj [("fields", .vObj [])], false⟩

/-- A second network oracle, answering instead of failing. -/
def netUp : String → JSVal → Bool → Except String JSVal :=
  fun _ _ _ => .ok (.vObj [("choices", .vArr [.vObj [("message",
    .vObj [("content", .vStr "\x7b\"actorSpecification\":1,\"fields\":\x7b\x7d\x7d")])]])])

/-- An input rejected locally (its draft schema exposes neither
`fields` nor `properties`). -/
def enhanceInputNoFields : EnhancementInput := ⟨"demo", .vObj [("type", .vStr "object")], false⟩

/-- A compactly formatted metadata document whose only
artifact-location field is `storages.dataset`. -/
def actorJsonCompact : String :=
  "\x7b\"name\":\"x\",\"storages\":\x7b\"dataset\":\"./old.json\"\x7d\x7d"

/-- What `updateActorJsonSurgically` returns for it: the whole document
re-serialized with four-space indentation. -/
def actorJsonReformatted : String :=
  "\x7b\n    \"name\": \"x\",\n    \"storages\": \x7b\n        \"dataset\": \"./dataset_schema.json\"\n    \x7d\n\x7d"

/-- A validation-actor oracle returning zero result items. -/
def validatorCallEmpty : List String → JSVal → Except String (List JSVal) := fun _ _ => .ok []

/-! ### General lemmas used by the claim proofs -/

/-- The success flag recorded for a variant equals `variantPasses`. -/
theorem runVariant_success (t n : String) (v : JSVal) :
    (runVariant t n v).success = variantPasses t v := by
  unfold runVariant variantPasses
  rcases validateInputPattern v t with m | r
  · rfl
  · rcases r with ⟨s, e⟩
    cases s <;> rfl

/-- Counting a disjunction splits into the left count plus the count of
the right conjoined with the left's negation. -/
theorem countP_or_split (p q : α → Bool) (l : List α) :
    l.countP (fun a => p a || q a) = l.countP p + l.countP (fun a => !p a && q a) := by
  induction l with
  | nil => rfl
  | cons a t ih =>
      simp only [List.countP_cons, ih]
      cases hp : p a <;> cases hq : q a <;> simp <;> omega

/-- `countP` respects pointwise equality on the list's members. -/
theorem countP_congr_mem {p q : α → Bool} {l : List α} (h : ∀ a ∈ l, p a = q a) :
    l.countP p = l.countP q := by
  induction l with
  | nil => rfl
  | cons a t ih =>
      simp only [List.countP_cons]
      rw [h a (by simp), ih (fun b hb => h b (by simp [hb]))]

/-- Sequencing an exception value can only succeed when the first step
succeeded. -/
theorem ebind_ok {α β : Type} {e : Except String α} {k : α → Except String β} {b : β}
    (h : ebind e k = .ok b) : ∃ a, e = .ok a ∧ k a = .ok b := by
  cases e with
  | error m => simp [ebind] at h
  | ok a => exact ⟨a, rfl, h⟩

/-- Claim C2: for every four-variant candidate input set,
`validateInputs` reports `totalRuns = 4`, `successfulRuns` equal to the
number of variants passing their per-variant check, and
`overallSuccess` exactly when at least two of the four variants
pass. -/
theorem validateInputs_twoOfFour (targetActorId : String) (inputs : TestInputConfig) :
    (validateInputs targetActorId inputs).totalRuns = 4 ∧
    (validateInputs targetActorId inputs).successfulRuns =
      (variantsList inputs).countP (fun p => variantPasses targetActorId p.2) ∧
    ((validateInputs targetActorId inputs).overallSuccess = true ↔
      2 ≤ (variantsList inputs).countP (fun p => variantPasses targetActorId p.2)) := by
  have hcnt : (validateInputs targetActorId inputs).successfulRuns =
      (variantsList inputs).countP (fun p => variantPasses targetActorId p.2) := by
    simp only [validateInputs, List.countP_map]
    exact countP_congr_mem (fun a _ => by simp [Function.comp, runVariant_success])
  refine ⟨?_, hcnt, ?_⟩
  · simp [validateInputs, variantsList]
  · rw [show (validateInputs targetActorId inputs).overallSuccess =
        decide (2 ≤ (validateInputs targetActorId inputs).successfulRuns) from rfl, hcnt]
    exact decide_eq_true_iff

/-- Claim C3, counterexample: for the target identifier
`Google-Maps-Reviews-Scraper` the empty object — a non-null object,
which the generic structural check accepts — fails the per-variant
check, so validation is not purely structural for every target
identifier. -/
theorem validateInputPattern_googleMaps_cex :
    variantPasses "Google-Maps-Reviews-Scraper" (JSVal.vObj []) = false ∧
    (validateGenericInput (JSVal.vObj [])).success = true := ⟨rfl, rfl⟩

/-- Claim C3 as amended: the per-variant check dispatches on the target
identifier — Google-Maps-specific business rules (required numeric
`maxReviews`, `startUrls`/`placeIds` checks, language whitelist) apply
whenever the identifier contains `Google-Maps-Reviews-Scraper`, and for
every other identifier a variant passes exactly when it is a non-null
object. -/
theorem validateInputPattern_dispatch (targetActorId : String) (input : JSVal) :
    variantPasses targetActorId input =
      if strContains targetActorId "Google-Maps-Reviews-Scraper" then googleMapsPasses input
      else (validateGenericInput input).success := by
  unfold variantPasses validateInputPattern googleMapsPasses
  by_cases h : strContains targetActorId "Google-Maps-Reviews-Scraper" = true
  · simp [h]
  · simp only [Bool.not_eq_true] at h
    simp [h]

/-- Claim C1: with four truthy non-object variants on every attempt the
retry loop performs exactly its three attempts and then aborts before
the workload stage — but the abort error reads `Unknown error` instead
of naming how many of the four variants were valid, because
`handleError` replaces its plain string argument (which carried the
counts) with that placeholder.  A first passing attempt stops the loop
at once with its inputs, and a nullish variant never reaches
validation: the field-count log read throws on attempt one and the run
aborts with the `TypeError` message instead. -/
theorem retryLoop_exhaustion_unknownError :
    generateTestInputsModel "t" genAlwaysBad =
      (3, .error "Test input generation failed: Input validation failed: Unknown error") ∧
    (superActorRunModel "t" genAlwaysBad restStages).2 = false ∧
    generateTestInputsModel "t" genGoodFirst =
      (1, .ok ⟨.vObj [], .vObj [], .vNum 1, .vNum 1, "t"⟩) ∧
    generateTestInputsModel "t" genNullVariant =
      (1, .error "Test input generation failed: Cannot convert undefined or null to object") ∧
    (superActorRunModel "t" genNullVariant restStages).2 = false := ⟨rfl, rfl, rfl, rfl, rfl⟩

/-- Truthy optional strings are present. -/
theorem optStrTruthy_isSome {o : Option String} (h : optStrTruthy o = true) : o.isSome = true := by
  cases o with
  | none => simp [optStrTruthy] at h
  | some s => rfl

/-- A result contributes a handle exactly when it has one directly or
the re-query yields one. -/
theorem collectFromResult_isSome (getRun : String → Except String (Option RunInfo))
    (r : RunResult) :
    (collectFromResult getRun r).isSome = (optStrTruthy r.datasetId || requeryYields getRun r) := by
  unfold collectFromResult requeryYields
  cases hd : optStrTruthy r.datasetId
  · simp only [hd, Bool.false_eq_true, if_false, Bool.false_or]
    cases hr : optStrTruthy r.runId
    · simp [hr]
    · simp only [hr, if_true, Bool.true_and]
      cases hg : getRun (r.runId.getD "") with
      | error m => simp
      | ok o =>
        cases o with
        | none => simp
        | some info =>
          cases hi : optStrTruthy info.defaultDatasetId
          · simp [hi]
          · simp [hi, optStrTruthy_isSome hi]
  · simp [hd, optStrTruthy_isSome hd]

/-- The number of collected handles is the number of contributing
results. -/
theorem collectDatasetIds_length (getRun : String → Except String (Option RunInfo))
    (rs : List RunResult) :
    (collectDatasetIds getRun rs).length =
      rs.countP (fun r => optStrTruthy r.datasetId || requeryYields getRun r) := by
  induction rs with
  | nil => rfl
  | cons r t ih =>
      have hcr := collectFromResult_isSome getRun r
      simp only [collectDatasetIds, List.filterMap_cons, List.countP_cons]
      simp only [collectDatasetIds] at ih
      cases h : collectFromResult getRun r with
      | none =>
          rw [h] at hcr
          simp only [Option.isSome_none] at hcr
          simp [ih, ← hcr]
      | some d =>
          rw [h] at hcr
          simp only [Option.isSome_some] at hcr
          simp [ih, ← hcr]

/-- Claim C4: for four run results with exactly one success (carrying
its handle), failures carrying none directly, and exactly one failure
whose re-query yields a handle, reconciliation succeeds (1/4) and
exactly two handles are collected. -/
theorem runner_one_success_two_handles
    (getRun : String → Except String (Option RunInfo)) (rs : List RunResult)
    (hlen : rs.length = 4)
    (hone : rs.countP (·.success) = 1)
    (hds : ∀ r ∈ rs, r.success = true → optStrTruthy r.datasetId = true)
    (hnods : ∀ r ∈ rs, r.success = false → optStrTruthy r.datasetId = false)
    (hreq : rs.countP (fun r => !r.success && requeryYields getRun r) = 1) :
    (validateRunResults rs).overallSuccess = true ∧
    (validateRunResults rs).successfulRuns = 1 ∧
    (validateRunResults rs).totalRuns = 4 ∧
    (collectDatasetIds getRun rs).length = 2 := by
  have hds_eq : ∀ r ∈ rs, optStrTruthy r.datasetId = r.success := by
    intro r hr
    cases hs : r.success
    · exact hnods r hr hs
    · exact hds r hr hs
  refine ⟨?_, ?_, ?_, ?_⟩
  · simp [validateRunResults, hone]
  · simp [validateRunResults, hone]
  · simp [validateRunResults, hlen]
  · rw [collectDatasetIds_length, countP_or_split]
    have h1 : rs.countP (fun r => optStrTruthy r.datasetId) = 1 := by
      rw [countP_congr_mem hds_eq]
      simpa using hone
    have h2 : rs.countP (fun r => !optStrTruthy r.datasetId && requeryYields getRun r) = 1 := by
      rw [countP_congr_mem (p := fun r => !optStrTruthy r.datasetId && requeryYields getRun r)
        (q := fun r => !r.success && requeryYields getRun r)
        (fun r hr => by
          show (!optStrTruthy r.datasetId && requeryYields getRun r)
            = (!r.success && requeryYields getRun r)
          rw [hds_eq r hr])]
      exact hreq
    omega

/-- Witness for claim C4 at the concrete scenario. -/
theorem runner_one_success_two_handles_witness :
    (validateRunResults runResultsW).overallSuccess = true ∧
    (validateRunResults runResultsW).successfulRuns = 1 ∧
    (validateRunResults runResultsW).totalRuns = 4 ∧
    (collectDatasetIds requeryOracleW runResultsW).length = 2 :=
  runner_one_success_two_handles requeryOracleW runResultsW (by decide) (by decide)
    (by decide) (by decide) (by decide)

/-- Claim C5: the stage passes a full-rate outcome through and fails
both a 9-of-10 outcome and a zero-dataset outcome — but the two failure
branches throw the identical message
`Schema validation failed: Unknown error`, because `handleError`
replaces its plain-string argument (the rate text and the no-datasets
text, respectively) with `Unknown error`; the zero-dataset failure is
therefore not distinguishable from the rate failure. -/
theorem validateSchema_threshold_sameError :
    (∀ v : ValidatorOutput,
      validateSchemaStep v = .ok v ↔ 0 < v.totalDatasets ∧ ¬ v.summary.successRate < 1) ∧
    validateSchemaStep validatorOutput910 =
      .error "Schema validation failed: Unknown error" ∧
    validateSchemaStep validatorOutputZero =
      .error "Schema validation failed: Unknown error" ∧
    validateSchemaStep validatorOutputAllValid = .ok validatorOutputAllValid := by
  refine ⟨?_, ?_, ?_, ?_⟩
  · intro v
    unfold validateSchemaStep
    split_ifs with h1 h2
    · simp [h1.1, h1.2]
    · simp [h2]
    · have ht : 0 < v.totalDatasets := Nat.pos_of_ne_zero h2
      have hr : ¬ v.summary.successRate < 1 := fun hlt => h1 ⟨ht, hlt⟩
      simp [ht, hr]
  · rw [validateSchemaStep, if_pos (by constructor <;> norm_num [validatorOutput910])]
    rfl
  · rfl
  · rw [validateSchemaStep, if_neg (by norm_num [validatorOutputAllValid])]
    rfl

/-- Claim C6: when pull-request creation always throws, the Publisher's
run reports failure with no pull-request URL and no pull-request
information, whatever happened in the earlier steps — in particular
even after branch creation, blob/tree/commit creation and the
branch-ref update all succeeded. -/
theorem publisher_pr_failure_no_result (c : GitHubClient) (now : Nat) (inp : CreatePRInput)
    (h : ∀ owner repo pr, ∃ m, c.pullsCreate owner repo pr = .error m) :
    (createPRRun c now inp).success = false ∧
    (createPRRun c now inp).prUrl = none ∧
    (createPRRun c now inp).prInfo = none := by
  cases hr : createPRRunInner c now inp with
  | error e => simp [createPRRun, hr]
  | ok out =>
    exfalso
    unfold createPRRunInner at hr
    obtain ⟨a1, h1, hr⟩ := ebind_ok hr
    obtain ⟨a2, h2, hr⟩ := ebind_ok hr
    obtain ⟨a3, h3, hr⟩ := ebind_ok hr
    obtain ⟨a4, h4, hr⟩ := ebind_ok hr
    obtain ⟨a5, h5, hr⟩ := ebind_ok hr
    obtain ⟨a6, h6, hr⟩ := ebind_ok hr
    obtain ⟨a7, h7, hr⟩ := ebind_ok hr
    obtain ⟨a8, h8, hr⟩ := ebind_ok hr
    obtain ⟨a9, h9, hr⟩ := ebind_ok hr
    obtain ⟨a10, h10, hr⟩ := ebind_ok hr
    obtain ⟨a11, h11, hr⟩ := ebind_ok hr
    obtain ⟨a12, h12, hr⟩ := ebind_ok hr
    obtain ⟨pr, hpr, _⟩ := ebind_ok hr
    obtain ⟨m, hm⟩ := h a1.owner a1.repo
      ⟨prTitleFor a5, prBodyText, "dataset-from-ai-" ++ toString now, a2⟩
    unfold createPullRequest wrapErr at hpr
    rw [hm] at hpr
    simp at hpr

/-- Witness for claim C6 at the concrete scenario. -/
theorem publisher_pr_failure_no_result_witness :
    (createPRRun ghClientW 0 prInputW).success = false ∧
    (createPRRun ghClientW 0 prInputW).prUrl = none ∧
    (createPRRun ghClientW 0 prInputW).prInfo = none :=
  publisher_pr_failure_no_result ghClientW 0 prInputW
    (fun _ _ _ => ⟨"API rate limit exceeded", rfl⟩)

/-- Claim C7, counterexample: this input exposes a `fields` object and
obeys both size bounds, yet `enhanceSchema` rejects it locally (no
network call) — the required-input guard on `actorName` fires first, so
bounds plus a `fields`/`properties` object do not suffice to reach the
network call. -/
theorem enhanceSchema_gate_cex :
    (enhanceSchema netOff enhanceInputEmptyName).2 = false ∧
    (enhanceSchema netOff enhanceInputEmptyName).1.success = false ∧
    jsTruthy (jsGetSafe enhanceInputEmptyName.datasetSchema "fields") = true ∧
    jsTypeof (jsGetSafe enhanceInputEmptyName.datasetSchema "fields") = "object" ∧
    ((jsonStringify0 (enhanceInputJson enhanceInputEmptyName)).getD "").length ≤ 1024 * 1024 ∧
    ((jsonStringify0 enhanceInputEmptyName.datasetSchema).getD "").length ≤ 500 * 1024 :=
  ⟨rfl, rfl, rfl, rfl, by decide, by decide⟩

/-- Claim C7 as amended: `enhanceSchema` skips the network call exactly
when one of its four sequential guards fires — missing/empty
`actorName` or falsy `datasetSchema`, no truthy `fields`/`properties`
object, serialized input above 1 MiB, or serialized schema above
500 KiB — and a locally rejected input yields a failed result that is
identical under any network oracle (no network call is made). -/
theorem enhanceSchema_gate_characterization
    (net net' : String → JSVal → Bool → Except String JSVal) (i : EnhancementInput) :
    ((enhanceSchema net i).2 = false ↔ enhanceGateRejects i = true) ∧
    ((enhanceSchema net i).2 = false →
      (enhanceSchema net i).1.success = false ∧ enhanceSchema net' i = enhanceSchema net i) := by
  unfold enhanceSchema enhanceGateRejects
  by_cases h1 : (!(i.actorName != "") || !jsTruthy i.datasetSchema) = true
  · simp [h1]
  · rw [Bool.not_eq_true] at h1
    simp only [h1, Bool.false_eq_true, if_false, Bool.false_or]
    by_cases h2 : (!jsTruthy (if jsTruthy (jsGetSafe i.datasetSchema "fields") = true
        then jsGetSafe i.datasetSchema "fields" else jsGetSafe i.datasetSchema "properties")
        || (jsTypeof (if jsTruthy (jsGetSafe i.datasetSchema "fields") = true
            then jsGetSafe i.datasetSchema "fields"
            else jsGetSafe i.datasetSchema "properties") != "object")) = true
    · simp [h2]
    · rw [Bool.not_eq_true] at h2
      simp only [h2, Bool.false_eq_true, if_false, Bool.false_or]
      by_cases h3 :
          ((jsonStringify0 (enhanceInputJson i)).getD "").length > 1024 * 1024
      · simp [h3]
      · simp only [if_neg h3, decide_eq_true_eq, h3, decide_eq_false_iff_not, not_false_iff,
          Bool.false_or]
        by_cases h4 : ((jsonStringify0 i.datasetSchema).getD "").length > 500 * 1024
        · simp [h4]
        · simp only [if_neg h4, h4, decide_eq_false_iff_not, not_false_iff]
          cases hnet : net i.actorName i.datasetSchema i.generateViews <;> simp

/-- Witness for claim C7 as amended: the rejected input fails, and the
result does not depend on the network oracle. -/
theorem enhanceSchema_gate_characterization_witness :
    (enhanceSchema netOff enhanceInputNoFields).1.success = false ∧
    enhanceSchema netUp enhanceInputNoFields = enhanceSchema netOff enhanceInputNoFields :=
  (enhanceSchema_gate_characterization netOff netUp enhanceInputNoFields).2 rfl

/-- Claim C8: beyond removing a top-level view configuration and
rewriting `storages.dataset`, `updateActorJsonSurgically` re-serializes
the whole document through `JSON.stringify(actorJson, null, 4)` — the
untouched `name` member, written compactly in the original, no longer
appears in its original formatting in the output, against both the
claim and the code's own `preserving formatting` comments. -/
theorem updateActorJsonSurgically_reformats :
    updateActorJsonSurgically actorJsonCompact = .ok actorJsonReformatted ∧
    strContains actorJsonCompact "\"name\":\"x\"" = true ∧
    strContains actorJsonReformatted "\"name\":\"x\"" = false := ⟨rfl, rfl, rfl⟩

/-- Claim C9: when the external validation actor returns zero result
items for a non-empty id list, `validateAllDatasets` reports every
supplied dataset valid, success rate exactly 1, zero invalid datasets,
no not-found ids and no failure diagnostics. -/
theorem validateAllDatasets_emptyResults
    (call : List String → JSVal → Except String (List JSVal))
    (datasetIds : List String) (schema : JSVal)
    (_hne : datasetIds ≠ [])
    (hcall : call datasetIds schema = .ok []) :
    validateAllDatasets call datasetIds schema =
      .ok ⟨datasetIds.length, 0, [], 1, 0, []⟩ := by
  unfold validateAllDatasets
  rw [hcall]
  rfl

/-- Witness for claim C9 with two dataset ids. -/
theorem validateAllDatasets_emptyResults_witness :
    validateAllDatasets validatorCallEmpty ["d1", "d2"] (.vObj []) =
      .ok ⟨2, 0, [], 1, 0, []⟩ :=
  validateAllDatasets_emptyResults validatorCallEmpty ["d1", "d2"] (.vObj []) (by decide) rfl

/-- Claim C10: the random split sends exactly `⌊N / 2⌋` ids to the
generation half and the remaining `N - ⌊N / 2⌋` to the validation half
(for any length-preserving shuffle); consequently, with exactly one
discovered dataset the generation half is empty and
`generateSchemaFromDatasets` always fails with the cannot-sample error
even though a dataset exists (it sits, reserved, in the validation
half). -/
theorem splitDatasets_half_and_single_failure
    (shuffle : List String → List String)
    (hperm : ∀ l, (shuffle l).Perm l)
    (ids : List String) (d actorId : String)
    (sample : String → Except String DatasetInfo)
    (genFromSamples : List DatasetInfo → Except String JSVal) :
    (splitDatasetsRandomly shuffle ids).1.length = ids.length / 2 ∧
    (splitDatasetsRandomly shuffle ids).2.length = ids.length - ids.length / 2 ∧
    generateSchemaFromDatasets shuffle (.ok [d]) sample genFromSamples actorId =
      ⟨false, none,
        some "Failed to sample data from any datasets. Please check dataset accessibility.",
        [], [d]⟩ := by
  have hl : ∀ l : List String, (shuffle l).length = l.length := fun l => (hperm l).length_eq
  have hsingle : shuffle [d] = [d] := List.perm_singleton.mp (hperm [d])
  refine ⟨?_, ?_, ?_⟩
  · simp [splitDatasetsRandomly, hl, Nat.div_le_self]
  · simp [splitDatasetsRandomly, hl]
  · simp [generateSchemaFromDatasets, splitDatasetsRandomly, hsingle, sampleGenerationDatasets]

/-- Witness for claim C10: identity shuffle, three ids for the split
shape, and a single discovered dataset for the failure. -/
theorem splitDatasets_half_and_single_failure_witness :
    (splitDatasetsRandomly (fun l => l) ["a", "b", "c"]).1.length = 1 ∧
    (splitDatasetsRandomly (fun l => l) ["a", "b", "c"]).2.length = 2 ∧
    generateSchemaFromDatasets (fun l => l) (.ok ["only"])
        (fun _ => .error "unreachable") (fun _ => .error "unreachable") "t" =
      ⟨false, none,
        some "Failed to sample data from any datasets. Please check dataset accessibility.",
        [], ["only"]⟩ :=
  splitDatasets_half_and_single_failure (fun l => l) (fun l => List.Perm.refl l)
    ["a", "b", "c"] "only" "t" (fun _ => .error "unreachable") (fun _ => .error "unreachable")

/-- Witness for claim C2: with exactly two plain-object variants the
threshold is met. -/
theorem validateInputs_twoOfFour_witness :
    (validateInputs "t" ⟨.vObj [], .vObj [], .vNull, .vNull, "t"⟩).overallSuccess = true :=
  ((validateInputs_twoOfFour "t" ⟨.vObj [], .vObj [], .vNull, .vNull, "t"⟩).2.2).mpr (by decide)

/-- Witness for claim C3 as amended: a generic target identifier gets
exactly the structural check. -/
theorem validateInputPattern_dispatch_witness :
    variantPasses "x" (JSVal.vObj []) = (validateGenericInput (JSVal.vObj [])).success := by
  rw [validateInputPattern_dispatch]
  rfl
